import Mathlib

/-
Verification of the lvm2 in-memory metadata cache (lib/cache/lvmcache.c).

The C file keeps process-wide mutable state: hash tables mapping PV ids,
VG ids and VG names to cache records, a lock-name table and a few global
flags.  We embed the relevant structures and operations as pure Lean
functions over explicit state records.  Hash tables become association
lists (dm_hash_lookup returns the first binding), C pointers to device
objects become structured values compared for identity, and the external
collaborators (label reading, format backends, the lvmetad daemon, the
distributed lock manager) become explicit environment parameters, as the
cache only observes their results.

Cross-component aliasing in the C code (one vginfo object reachable from
several hash tables) is avoided by giving each group of operations the one
table it reads and writes; no claim below crosses tables through an alias.
-/

/-! ## Association list helpers (dm_hash semantics) -/

/-- dm_hash_lookup: first binding for a key, if any. -/
def alookup {β : Type} (l : List (String × β)) (k : String) : Option β :=
  match l with
  | [] => none
  | (k', v) :: t => if k' = k then some v else alookup t k

/-- Write back a record reached through the hash (in C the hash aliases the
mutated object, so mutation is visible through the table). -/
def aset {β : Type} (l : List (String × β)) (k : String) (v : β) : List (String × β) :=
  l.map (fun p => if p.1 = k then (k, v) else p)

/-- dm_hash_remove. -/
def aerase {β : Type} (l : List (String × β)) (k : String) : List (String × β) :=
  l.filter (fun p => p.1 ≠ k)

/-! ## Reserved VG names

Modelled from the spec: the reserved global lock name and the orphan
pseudo-VG name classification (`VG_GLOBAL`, `VG_ORPHANS`, `is_global_vg`,
`is_orphan_vg` live in headers that are not part of src/).  The spec speaks
of "the reserved global name" and "orphan pseudo-VG names, one per on-disk
format"; orphan names share a distinguished marker so that a single test
recognises all of them. -/

def VG_GLOBAL : String := "#global"

def VG_ORPHANS : String := "#orphans"

/-- Modelled from the spec: a name is the reserved global name exactly when
it equals `VG_GLOBAL`. -/
def is_global_vg (vgname : String) : Bool :=
  vgname = VG_GLOBAL

/-- Modelled from the spec: orphan pseudo-VG names (one per format) all
start with the orphan marker `#orphans` (the prefix test is on the
underlying character lists). -/
def is_orphan_vg (vgname : String) : Bool :=
  VG_ORPHANS.data.isPrefixOf vgname.data

/-! ## Data model (struct lvmcache_info / struct lvmcache_vginfo) -/

/-- A device object (struct device).  `devId` stands for the identity of
the C object (pointer identity); `pvid` is the pvid field recorded on the
device. -/
structure Dev where
  devId : Nat
  pvid : String
deriving DecidableEq

/-- struct lvmcache_info, one per device/PV pairing.  The `status` bitmask
is split into its two used bits (CACHE_INVALID, CACHE_LOCKED); the label,
format and metadata/data/bootloader area sub-lists are opaque external
objects not touched by the properties below and are elided. -/
structure PvInfo where
  dev : Dev
  cacheInvalid : Bool
  cacheLocked : Bool
deriving DecidableEq

/-- struct lvmcache_vginfo, one per VG record.  `exported` is the
EXPORTED_VG bit of the status word; `cached_vg` is the identity of the
reference-counted parsed VG object (NULL = none); `cft` is the config tree
parsed from `vgmetadata` (its lifetime is tied to the blob).  The mda
checksum/size pair and the lock-type string are not touched by the claims
and are elided. -/
structure Vginfo where
  vgname : String
  vgid : String
  exported : Bool
  creation_host : Option String
  vgmetadata : Option String
  vgmetadata_size : Nat
  cft : Option String
  cached_vg : Option Nat
  holders : Nat
  vg_use_count : Nat
  precommitted : Bool
  cached_vg_invalidated : Bool
  infos : List PvInfo
deriving DecidableEq

/-! ## Lock queries and validity (lvmcache.c lines 600-824) -/

/-- lvmcache_vgname_is_locked over the lock table contents (orphan names
all map to the single VG_ORPHANS lock). -/
def lvmcache_vgname_is_locked (lockHash : List String) (vgname : String) : Bool :=
  (if is_orphan_vg vgname then VG_ORPHANS else vgname) ∈ lockHash

/-- _info_is_valid; `vgnameLocked` is
`lvmcache_vgname_is_locked(info->vginfo->vgname)`, supplied by the caller
because validity of a member is judged against its owning VG. -/
def _info_is_valid (vgnameLocked : Bool) (info : PvInfo) : Bool :=
  if info.cacheInvalid then false
  else if !vgnameLocked then true
  else if !info.cacheLocked then false
  else true

/-- _vginfo_is_valid: invalid if any member info is invalid. -/
def _vginfo_is_valid (lockHash : List String) (v : Vginfo) : Bool :=
  v.infos.all (_info_is_valid (lvmcache_vgname_is_locked lockHash v.vgname))

/-! ## VG metadata cache: free / store / commit / drop
(lvmcache.c lines 350-504) -/

/-- lvmcache_vginfo_holders_dec_and_test_for_zero: drop one holder of the
parsed VG object; at zero the object is torn down (cached_vg cleared).
The pool-unlock consistency check is an external debug aid. -/
def lvmcache_vginfo_holders_dec_and_test_for_zero (v : Vginfo) : Vginfo × Bool :=
  let h := v.holders - 1
  if h = 0 then ({ v with holders := 0, cached_vg := none }, true)
  else ({ v with holders := h }, false)

/-- release_vg(vginfo->cached_vg): no-op on NULL, otherwise one holder is
dropped (the external free of the VG memory at zero holders is outside the
cache). -/
def _release_vg_cached (v : Vginfo) : Vginfo :=
  match v.cached_vg with
  | none => v
  | some _ => (lvmcache_vginfo_holders_dec_and_test_for_zero v).1

/-- _free_cached_vgmetadata: discard the serialized blob, the config tree
tied to it, and release the cache reference on the parsed VG object. -/
def _free_cached_vgmetadata (v : Vginfo) : Vginfo :=
  match v.vgmetadata with
  | none => v
  | some _ => _release_vg_cached { v with vgmetadata := none, cft := none }

/-- _store_metadata at the record level: the preamble (vgid lookup and
export_vg_to_buffer, an external serializer) resolves to this update of the
matching record with the serialized `data`.  Storing a byte-identical blob
keeps the cached copy; the precommitted flag is always overwritten. -/
def _store_metadata (v : Vginfo) (data : String) (pre : Bool) : Vginfo :=
  let v1 :=
    match v.vgmetadata with
    | some d =>
        if v.vgmetadata_size = data.length ∧ d = data then v
        else { _free_cached_vgmetadata v with
               vgmetadata_size := data.length, vgmetadata := some data }
    | none =>
        { _free_cached_vgmetadata v with
          vgmetadata_size := data.length, vgmetadata := some data }
  { v1 with precommitted := pre }

/-- lvmcache_commit_metadata at the record level (the wrapper looks the
record up by name and applies this): clear the precommitted flag only. -/
def lvmcache_commit_metadata (v : Vginfo) : Vginfo :=
  if v.precommitted then { v with precommitted := false } else v

/-- _drop_metadata at the record level (the wrapper looks the record up by
name).  Returns the updated record and whether the internal-error report
about a missing commit/revert was emitted. -/
def _drop_metadata (v : Vginfo) (drop_precommitted : Bool) : Vginfo × Bool :=
  let internalError := !drop_precommitted && v.precommitted && v.vgmetadata.isNone
  let v1 :=
    if drop_precommitted || !v.precommitted then
      { v with infos := v.infos.map (fun i => { i with cacheInvalid := true }) }
    else v
  let v2 := _free_cached_vgmetadata v1
  let v3 := if drop_precommitted then { v2 with precommitted := false } else v2
  (v3, internalError)

/-! ## lvmcache_get_vg (lvmcache.c lines 959-1046) -/

/-- External collaborators observed by lvmcache_get_vg: the lvmetad daemon,
the critical-section query of the lock coordination layer, and the format
backend used to rebuild a parsed VG object from the serialized blob.
`importVgFromConfigTree` yields the identity of the freshly built parsed VG
object, or none on backend failure. -/
structure MetaEnv where
  lvmetadActive : Bool
  criticalSectionFlag : Bool
  lvmetadLookup : Option Nat
  createInstanceOk : Bool
  dm_config_from_string : String → Option String
  importVgFromConfigTree : String → Option Nat
  poolLockOk : Bool

/-- The state read and written by lvmcache_get_vg: the vgid hash and the
lock table (consulted through _vginfo_is_valid). -/
structure MetaState where
  vgidHash : List (String × Vginfo)
  lockHash : List String
deriving DecidableEq

/-- The `out:` label of lvmcache_get_vg: hand the parsed VG object to the
caller, counting one more holder and one more reuse. -/
def _get_vg_out (s : MetaState) (id : String) (v : Vginfo) (vg : Nat) :
    Option Nat × MetaState :=
  let v2 := { v with holders := v.holders + 1, vg_use_count := v.vg_use_count + 1 }
  (some vg, { s with vgidHash := aset s.vgidHash id v2 })

/-- The rebuild part of lvmcache_get_vg: create a format instance, build
the config tree from the blob unless already cached, import the VG from it,
install it as the cached VG with one (cache-owned) holder, then fall
through to `out:`.  Every failure takes the `bad:` path, which discards the
cached metadata. -/
def _get_vg_build (env : MetaEnv) (s : MetaState) (id : String) (v : Vginfo)
    (blob : String) : Option Nat × MetaState :=
  if !env.createInstanceOk then
    (none, { s with vgidHash := aset s.vgidHash id v })
  else
    match (match v.cft with
           | some t => some t
           | none => env.dm_config_from_string blob) with
    | none =>
        (none, { s with vgidHash := aset s.vgidHash id (_free_cached_vgmetadata v) })
    | some t =>
        let v2 := { v with cft := some t }
        match env.importVgFromConfigTree t with
        | none =>
            (none, { s with vgidHash := aset s.vgidHash id (_free_cached_vgmetadata v2) })
        | some vg =>
            let v3 := { v2 with
                        cached_vg := some vg
                        holders := 1
                        vg_use_count := 0
                        cached_vg_invalidated := false }
            if !env.poolLockOk then
              (none, { s with vgidHash := aset s.vgidHash id (_free_cached_vgmetadata v3) })
            else _get_vg_out s id v3 vg

/-- lvmcache_get_vg.  With lvmetad active and live metadata requested, the
locally cached parsed VG is still served when present, otherwise the lookup
is delegated to the daemon.  Otherwise the record is found by vgid and the
cached data is refused when the record is missing, the blob is missing, the
record is not fully valid, precommitted data is requested but not cached,
or live data is requested while the cached blob is precommitted and no
critical section is active.  `_vgname` is only passed through to external
collaborators. -/
def lvmcache_get_vg (env : MetaEnv) (s : MetaState) (_vgname : Option String)
    (vgid : Option String) (precommitted : Bool) : Option Nat × MetaState :=
  if env.lvmetadActive && !precommitted then
    match vgid with
    | some id =>
        match alookup s.vgidHash id with
        | some v =>
            if v.vgmetadata.isSome then
              match v.cached_vg with
              | some vg => _get_vg_out s id v vg
              | none => (env.lvmetadLookup, s)
            else (env.lvmetadLookup, s)
        | none => (env.lvmetadLookup, s)
    | none => (env.lvmetadLookup, s)
  else
    match vgid with
    | none => (none, s)
    | some id =>
        match alookup s.vgidHash id with
        | none => (none, s)
        | some v =>
            match v.vgmetadata with
            | none => (none, s)
            | some blob =>
                if !(_vginfo_is_valid s.lockHash v) then (none, s)
                else if (precommitted && !v.precommitted) ||
                        (!precommitted && v.precommitted && !env.criticalSectionFlag) then
                  (none, s)
                else
                  match v.cached_vg with
                  | some vg =>
                      if !v.cached_vg_invalidated then _get_vg_out s id v vg
                      else _get_vg_build env s id (_release_vg_cached v) blob
                  | none => _get_vg_build env s id (_release_vg_cached v) blob

/-- n successive calls to lvmcache_get_vg with the same arguments,
collecting the returned VG objects. -/
def lvmcache_get_vg_iter (env : MetaEnv) (vgname : Option String)
    (vgid : Option String) (precommitted : Bool) :
    Nat → MetaState → List (Option Nat) × MetaState
  | 0, s => ([], s)
  | n + 1, s =>
      let r := lvmcache_get_vg env s vgname vgid precommitted
      let rest := lvmcache_get_vg_iter env vgname vgid precommitted n r.2
      (r.1 :: rest.1, rest.2)

/-- k successive holder releases of a record; the Bool records whether any
release tore the parsed object down (reached zero holders). -/
def holders_dec_iter : Nat → Vginfo → Vginfo × Bool
  | 0, v => (v, false)
  | k + 1, v =>
      let r := lvmcache_vginfo_holders_dec_and_test_for_zero v
      let rest := holders_dec_iter k r.1
      (rest.1, r.2 || rest.2)

/-! ## Lock ordering (lvmcache.c lines 523-578) -/

/-- _vgname_order_correct: vgname2 must come after vgname1; VG_GLOBAL
comes first, orphan locks last, other names alphabetically (strcmp). -/
def _vgname_order_correct (vgname1 vgname2 : String) : Bool :=
  if is_global_vg vgname1 then true
  else if is_global_vg vgname2 then false
  else if is_orphan_vg vgname1 then false
  else if is_orphan_vg vgname2 then true
  else if vgname1 < vgname2 then true
  else false

/-- lvmcache_verify_lock_order over the lock table contents: every
currently held name must be allowed to precede the requested one.  (The
NULL-table and NULL-key guards of the C function also return failure; they
concern an uninitialised cache and are outside this table-level model.) -/
def lvmcache_verify_lock_order (lockHash : List String) (vgname : String) : Bool :=
  lockHash.all (fun vgname2 => _vgname_order_correct vgname2 vgname)

/-- The rank of a name in the required total lock order: the reserved
global name first, ordinary names in the middle, orphan names last. -/
def lockRank (vgname : String) : Nat :=
  if is_global_vg vgname then 0
  else if is_orphan_vg vgname then 2
  else 1

/-- The required total acquisition order on VG lock names: global first,
then ordinary names lexicographically, then orphan names. -/
def lockOrderLt (a b : String) : Prop :=
  lockRank a < lockRank b ∨ (lockRank a = 1 ∧ lockRank b = 1 ∧ a < b)

/-! ## Lock-state tracking and cache teardown
(lvmcache.c lines 301-334, 413-456, 580-627, 1912-1970) -/

/-- The state read and written by the lock-state tracker: `inited` states
whether the hash tables exist (non-NULL); `vgnameHash` maps a VG name to
its record (the same-name chain is modelled separately for the name
resolution claims); `vgGlobalLockHeld` is the static flag surviving cache
teardown; `internalErrorCount` and `devCloseAllCount` trace the
internal-error log lines and the dev_close_all calls. -/
structure LockState where
  inited : Bool
  lockHash : List String
  vgnameHash : List (String × Vginfo)
  vgsLocked : Nat
  vgGlobalLockHeld : Bool
  internalErrorCount : Nat
  devCloseAllCount : Nat
deriving DecidableEq

/-- _update_cache_info_lock_state: one member PV becomes CACHE_INVALID when
its lock status flips while the global lock is not held; the second
component reports whether the cached VG metadata stays valid. -/
def _update_cache_info_lock_state (globalLocked : Bool) (locked : Bool)
    (info : PvInfo) : PvInfo × Bool :=
  let was_locked := info.cacheLocked
  let flip := !globalLocked && (was_locked != locked)
  let info1 := if flip then { info with cacheInvalid := true } else info
  ({ info1 with cacheLocked := locked }, !flip)

/-- _update_cache_vginfo_lock_state: update every member, and discard the
cached metadata blob when any member invalidated it. -/
def _update_cache_vginfo_lock_state (globalLocked : Bool) (v : Vginfo)
    (locked : Bool) : Vginfo :=
  let results := v.infos.map (_update_cache_info_lock_state globalLocked locked)
  let v1 := { v with infos := results.map Prod.fst }
  if results.all Prod.snd then v1 else _free_cached_vgmetadata v1

/-- _update_cache_lock_state: find the record by name and update it. -/
def _update_cache_lock_state (s : LockState) (vgname : String) (locked : Bool) :
    LockState :=
  match alookup s.vgnameHash vgname with
  | none => s
  | some v =>
      let gl := lvmcache_vgname_is_locked s.lockHash VG_GLOBAL
      { s with vgnameHash := aset s.vgnameHash vgname
                 (_update_cache_vginfo_lock_state gl v locked) }

/-- The body of lvmcache_lock_vgname once the tables exist: report nested
locking, record the lock, and for non-global names drive the cache
invalidation and count the lock. -/
def _lock_vgname_body (s : LockState) (vgname : String) : LockState :=
  let s1 := if vgname ∈ s.lockHash
            then { s with internalErrorCount := s.internalErrorCount + 1 } else s
  let s2 := { s1 with lockHash := vgname :: s1.lockHash }
  if vgname ≠ VG_GLOBAL then
    let s3 := _update_cache_lock_state s2 vgname true
    { s3 with vgsLocked := s3.vgsLocked + 1 }
  else s2

/-- lvmcache_init: fresh empty tables, the per-VG lock counter reset, and
the global lock re-registered when it was held at the previous teardown. -/
def lvmcache_init (s : LockState) : LockState :=
  let s1 := { s with inited := true, vgsLocked := 0, lockHash := [], vgnameHash := [] }
  if s1.vgGlobalLockHeld then
    { _lock_vgname_body s1 VG_GLOBAL with vgGlobalLockHeld := false }
  else s1

/-- lvmcache_lock_vgname: initialise the cache first if needed. -/
def lvmcache_lock_vgname (s : LockState) (vgname : String) : LockState :=
  let s1 := if !s.inited then lvmcache_init s else s
  _lock_vgname_body s1 vgname

/-- lvmcache_unlock_vgname: report unlocking an unlocked name, drive the
cache invalidation for non-global names, unregister the lock, and close all
device handles when the last per-VG lock goes away. -/
def lvmcache_unlock_vgname (s : LockState) (vgname : String) : LockState :=
  let s1 := if vgname ∉ s.lockHash
            then { s with internalErrorCount := s.internalErrorCount + 1 } else s
  let s2 := if vgname ≠ VG_GLOBAL then _update_cache_lock_state s1 vgname false else s1
  let s3 := { s2 with lockHash := s2.lockHash.erase vgname }
  if vgname ≠ VG_GLOBAL then
    let n := s3.vgsLocked - 1
    let s4 := { s3 with vgsLocked := n }
    if n = 0 then { s4 with devCloseAllCount := s4.devCloseAllCount + 1 } else s4
  else s3

/-- _lvmcache_destroy_lockname folded over the lock table at teardown: a
still-registered global lock survives through the static flag, any other
still-registered name is an internal error. -/
def _lvmcache_destroy_lockname (s : LockState) (vgname : String) : LockState :=
  if vgname = VG_GLOBAL then { s with vgGlobalLockHeld := true }
  else { s with internalErrorCount := s.internalErrorCount + 1 }

/-- lvmcache_destroy (lock-table part; the pvid/vgid/vgname tables are
freed, and the optional orphan reseeding delegates to an external
collaborator that re-enters lvmcache_init).  With `reset` the surviving
global-lock flag is cleared instead of recomputed. -/
def lvmcache_destroy (s : LockState) (reset : Bool) : LockState :=
  if !s.inited then s
  else
    let s1 := if reset then { s with vgGlobalLockHeld := false }
              else s.lockHash.foldl _lvmcache_destroy_lockname s
    { s1 with lockHash := [], vgnameHash := [], inited := false }

/-! ## Registering a device observation: lvmcache_add
(lvmcache.c lines 1335-1353, 1782-1891) -/

/-- The state of the PV identity index together with the duplicate
tracking: the pvid hash, the process-wide Duplicate-Found Flag, and a
count of emitted warning lines. -/
structure AddState where
  pvidHash : List (String × PvInfo)
  foundDuplicates : Bool
  warnCount : Nat
deriving DecidableEq

/-- Environment of lvmcache_add: the VG-name/vgid attachment performed by
lvmcache_update_vgname_and_id operates on the VG-side tables (modelled
separately below); only its success or failure feeds back into the identity
index, through the clean-up path of lvmcache_add. -/
structure AddEnv where
  vgUpdateOk : Bool

/-- lvmcache_info_from_pvid on the identity index (the callers inside
lvmcache_add pass valid_only = 0, so the validity filter is not taken). -/
def lvmcache_info_from_pvid (s : AddState) (pvid : String) : Option PvInfo :=
  alookup s.pvidHash pvid

/-- _lvmcache_update_pvid: rebind the record to `pvid`, dropping the old
binding keyed by the pvid previously recorded on the device.  (In C the
early return for "already stored with the same pvid" leaves the aliased,
already-mutated object in the hash; in this value model both paths write
the current record back.) -/
def _lvmcache_update_pvid (s : AddState) (info : PvInfo) (pvid : String) :
    AddState × PvInfo :=
  let s1 := if info.dev.pvid ≠ "" ∧ info.dev.pvid ≠ pvid
            then { s with pvidHash := aerase s.pvidHash info.dev.pvid } else s
  let info1 := { info with dev := { info.dev with pvid := pvid } }
  ({ s1 with pvidHash := (pvid, info1) :: aerase s1.pvidHash pvid }, info1)

/-- lvmcache_add: register the observation of `pvid` on device `dev`.  A
pvid already held by a different device is rejected: two warnings, the
Duplicate-Found Flag, and no record produced.  The same device is accepted
and rebound.  A new pvid produces a fresh record marked CACHE_INVALID.
The label object handling is external; the VG-side attachment is the
environment transition (its failure undoes the insertion of a fresh
record, as in the source). -/
def lvmcache_add (env : AddEnv) (s : AddState) (pvid : String) (dev : Dev) :
    Option PvInfo × AddState :=
  let existing? :=
    match lvmcache_info_from_pvid s pvid with
    | some i => some i
    | none => lvmcache_info_from_pvid s dev.pvid
  match existing? with
  | none =>
      let info : PvInfo := { dev := dev, cacheInvalid := true, cacheLocked := false }
      let r := _lvmcache_update_pvid s info pvid
      if env.vgUpdateOk then (some r.2, r.1)
      else (none, { r.1 with pvidHash := aerase r.1.pvidHash pvid })
  | some existing =>
      if existing.dev ≠ dev then
        (none, { s with foundDuplicates := true, warnCount := s.warnCount + 2 })
      else
        let info := { existing with dev := dev, cacheInvalid := true }
        let r := _lvmcache_update_pvid s info pvid
        if env.vgUpdateOk then (some r.2, r.1) else (none, r.1)

/-- lvmcache_found_duplicates. -/
def lvmcache_found_duplicates (s : AddState) : Bool :=
  s.foundDuplicates

/-! ## Scan orchestrator: lvmcache_label_scan
(lvmcache.c lines 878-957) -/

/-- The state read and written by lvmcache_label_scan. -/
structure ScanState where
  inited : Bool
  pvidHash : List (String × PvInfo)
  hasScanned : Bool
  scanningInProgress : Bool
deriving DecidableEq

/-- Environment of lvmcache_label_scan: the lvmetad daemon, the device
filter chain and the per-format scanning hooks.  `filterDevs` is the
device list produced by dev_iter over the full filter (none = the filter
is missing or dev_iter creation failed). -/
structure ScanEnv where
  lvmetadActive : Bool
  filterUseCountZero : Bool
  refreshOk : Bool
  filterDevs : Option (List Dev)
  independentMdas : Bool
  fmtScanOk : Bool

/-- lvmcache_label_scan.  Returns success, the new state and the trace of
devices handed to label_read (whose effect on the index goes through the
external labeller callbacks).  With lvmetad active everything is delegated;
a scan already in progress is never re-entered; once a scan happened and no
full scan is forced, only CACHE_INVALID entries are re-read
(_scan_invalid). -/
def lvmcache_label_scan (env : ScanEnv) (s : ScanState) (full_scan : Nat) :
    Bool × ScanState × List Dev :=
  if env.lvmetadActive then (true, s, [])
  else if s.scanningInProgress then (false, s, [])
  else
    let s1 := { s with scanningInProgress := true }
    let s2 := if !s1.inited then { s1 with inited := true, pvidHash := [] } else s1
    if s2.hasScanned ∧ full_scan = 0 then
      let reads := (s2.pvidHash.filter (fun p => p.2.cacheInvalid)).map (fun p => p.2.dev)
      (true, { s2 with scanningInProgress := false }, reads)
    else if full_scan = 2 ∧ env.filterUseCountZero ∧ !env.refreshOk then
      (false, { s2 with scanningInProgress := false }, [])
    else
      match env.filterDevs with
      | none => (false, { s2 with scanningInProgress := false }, [])
      | some devs =>
          let s3 := { s2 with hasScanned := true }
          if env.independentMdas ∧ !env.fmtScanOk then
            (false, { s3 with scanningInProgress := false }, devs)
          else (true, { s3 with scanningInProgress := false }, devs)

/-! ## Duplicate VG names: _insert_vginfo (lvmcache.c lines 1390-1472) -/

/-- The precedence decision of _insert_vginfo, first matching rule wins
(use_new = the new record becomes primary).  The id_write_format calls
around it only format uuids for the warnings. -/
def _use_new_vginfo (primary : Vginfo) (newExported : Bool)
    (newCreationHost : Option String) (hostname : String) : Bool :=
  if !primary.exported && newExported then false
  else if primary.exported && !newExported then true
  else if (match primary.creation_host with
           | some h => h == hostname
           | none => false) then false
  else if primary.creation_host.isNone && newCreationHost.isSome then true
  else if (match newCreationHost with
           | some h => h == hostname
           | none => false) then true
  else false

/-- _insert_vginfo on the same-name chain (primary record first, the
`next` pointers giving the rest of the sequence).  A losing new record is
appended at the tail of the chain; a winning new record becomes the head
with the old primary chained behind it.  Each outcome leaves both records
in the chain. -/
def _insert_vginfo (new_vginfo : Vginfo) (newExported : Bool)
    (newCreationHost : Option String) (hostname : String)
    (chain : List Vginfo) : List Vginfo :=
  match chain with
  | [] => [new_vginfo]
  | primary :: rest =>
      if _use_new_vginfo primary newExported newCreationHost hostname then
        new_vginfo :: primary :: rest
      else (primary :: rest) ++ [new_vginfo]

/-- The claimed precedence policy, stated from the spec wording: keep the
existing primary unless (rule 2) it is exported and the new one is not,
(rule 4) it has no creation host while the new one has, or (rule 5) the
new record was created on the local host; rules 1 and 3 keep the existing
record, rule 6 is the default. -/
def duplicate_vgname_policy_use_new (primaryExported : Bool)
    (primaryCreationHost : Option String) (newExported : Bool)
    (newCreationHost : Option String) (hostname : String) : Bool :=
  if !primaryExported && newExported then false
  else if primaryExported && !newExported then true
  else if primaryCreationHost = some hostname then false
  else if primaryCreationHost = none && newCreationHost ≠ none then true
  else if newCreationHost = some hostname then true
  else false

/-! ## Helper lemmas on the metadata-cache record operations -/

@[simp]
theorem holders_dec_fst_vgmetadata (v : Vginfo) :
    (lvmcache_vginfo_holders_dec_and_test_for_zero v).1.vgmetadata = v.vgmetadata := by
  unfold lvmcache_vginfo_holders_dec_and_test_for_zero
  dsimp only
  split <;> rfl

@[simp]
theorem holders_dec_fst_cft (v : Vginfo) :
    (lvmcache_vginfo_holders_dec_and_test_for_zero v).1.cft = v.cft := by
  unfold lvmcache_vginfo_holders_dec_and_test_for_zero
  dsimp only
  split <;> rfl

@[simp]
theorem holders_dec_fst_precommitted (v : Vginfo) :
    (lvmcache_vginfo_holders_dec_and_test_for_zero v).1.precommitted = v.precommitted := by
  unfold lvmcache_vginfo_holders_dec_and_test_for_zero
  dsimp only
  split <;> rfl

@[simp]
theorem holders_dec_fst_infos (v : Vginfo) :
    (lvmcache_vginfo_holders_dec_and_test_for_zero v).1.infos = v.infos := by
  unfold lvmcache_vginfo_holders_dec_and_test_for_zero
  dsimp only
  split <;> rfl

@[simp]
theorem release_vg_cached_vgmetadata (v : Vginfo) :
    (_release_vg_cached v).vgmetadata = v.vgmetadata := by
  unfold _release_vg_cached
  cases v.cached_vg <;> simp

@[simp]
theorem release_vg_cached_cft (v : Vginfo) :
    (_release_vg_cached v).cft = v.cft := by
  unfold _release_vg_cached
  cases v.cached_vg <;> simp

@[simp]
theorem release_vg_cached_precommitted (v : Vginfo) :
    (_release_vg_cached v).precommitted = v.precommitted := by
  unfold _release_vg_cached
  cases v.cached_vg <;> simp

@[simp]
theorem release_vg_cached_infos (v : Vginfo) :
    (_release_vg_cached v).infos = v.infos := by
  unfold _release_vg_cached
  cases v.cached_vg <;> simp

@[simp]
theorem free_cached_vgmetadata_eq_none (v : Vginfo) :
    (_free_cached_vgmetadata v).vgmetadata = none := by
  unfold _free_cached_vgmetadata
  cases h : v.vgmetadata <;> simp [h]

theorem free_cached_vgmetadata_cft (v : Vginfo) (d : String)
    (h : v.vgmetadata = some d) : (_free_cached_vgmetadata v).cft = none := by
  unfold _free_cached_vgmetadata
  rw [h]
  simp

@[simp]
theorem free_cached_vgmetadata_precommitted (v : Vginfo) :
    (_free_cached_vgmetadata v).precommitted = v.precommitted := by
  unfold _free_cached_vgmetadata
  cases h : v.vgmetadata <;> simp

@[simp]
theorem free_cached_vgmetadata_infos (v : Vginfo) :
    (_free_cached_vgmetadata v).infos = v.infos := by
  unfold _free_cached_vgmetadata
  cases h : v.vgmetadata <;> simp

@[simp]
theorem store_metadata_vgmetadata (v : Vginfo) (d : String) (p : Bool) :
    (_store_metadata v d p).vgmetadata = some d := by
  unfold _store_metadata
  cases h : v.vgmetadata with
  | none => rfl
  | some d0 =>
      dsimp only
      split
      · next hc => simp [h, hc.2]
      · rfl

@[simp]
theorem store_metadata_precommitted (v : Vginfo) (d : String) (p : Bool) :
    (_store_metadata v d p).precommitted = p := rfl

/-! ## Claim C3: precommit round-trip -/

/-- Claim C3: storing a blob precommitted and then committing leaves the
record with the same blob and the precommitted flag cleared, and the commit
changes nothing but the flag; storing and then dropping with
drop_precommitted leaves the record with no cached blob, no parsed tree and
the precommitted flag cleared. -/
theorem C3_store_commit_drop_roundtrip (v : Vginfo) (blob : String) (pre : Bool) :
    (lvmcache_commit_metadata (_store_metadata v blob true) =
       { _store_metadata v blob true with precommitted := false } ∧
     (lvmcache_commit_metadata (_store_metadata v blob true)).vgmetadata = some blob) ∧
    ((_drop_metadata (_store_metadata v blob pre) true).1.vgmetadata = none ∧
     (_drop_metadata (_store_metadata v blob pre) true).1.cft = none ∧
     (_drop_metadata (_store_metadata v blob pre) true).1.precommitted = false) := by
  refine ⟨⟨?_, ?_⟩, ?_, ?_, ?_⟩
  · unfold lvmcache_commit_metadata
    rw [store_metadata_precommitted]
    simp
  · unfold lvmcache_commit_metadata
    rw [store_metadata_precommitted]
    simp
  · unfold _drop_metadata
    simp
  · unfold _drop_metadata
    dsimp only
    apply free_cached_vgmetadata_cft _ blob
    simp
  · unfold _drop_metadata
    simp

/-! ## Claim C7: dropping while precommitted state exists -/

/-- A concrete record in the PRECOMMITTED state: the precommitted flag is
set and the serialized blob is cached. -/
def vC7 : Vginfo :=
  { vgname := "vg7", vgid := "id7", exported := false, creation_host := none,
    vgmetadata := some "m7", vgmetadata_size := 2, cft := none,
    cached_vg := none, holders := 0, vg_use_count := 0, precommitted := true,
    cached_vg_invalidated := false, infos := [] }

/-- Claim C7 counterexample: this record holds precommitted state that was
neither committed nor reverted, yet dropping it with
drop_precommitted=false logs no internal error (the C code only reports
when the precommitted flag is set while the blob is already gone). -/
theorem C7_counterexample :
    vC7.precommitted = true ∧ vC7.vgmetadata = some "m7" ∧
    (_drop_metadata vC7 false).2 = false := by
  refine ⟨rfl, rfl, ?_⟩
  decide

/-- Claim C7 (amended): dropping with drop_precommitted=false logs the
internal error exactly when the precommitted flag of the record is set while the
blob is already discarded (precommitted state was dropped without an
explicit commit or revert); the error is non-fatal and the drop still
proceeds, leaving no cached blob. -/
theorem C7_drop_internal_error (v : Vginfo) :
    (_drop_metadata v false).2 = (v.precommitted && v.vgmetadata.isNone) ∧
    (_drop_metadata v false).1.vgmetadata = none := by
  constructor
  · unfold _drop_metadata
    simp
  · unfold _drop_metadata
    simp

/-! ## Claim C8: duplicate VG name precedence -/

/-- Claim C8: when a VG name is attached to a second, distinct VG
identifier, the record made primary is chosen by the stated first-match
precedence (keep existing unless: existing exported and new not; existing
without creation host and new with one; new created on the local host;
with the exported rules first), and the losing record stays on the chain
behind the winner. -/
theorem C8_insert_vginfo_precedence (new_vginfo primary : Vginfo)
    (rest : List Vginfo) (newExported : Bool) (newCreationHost : Option String)
    (hostname : String) :
    _insert_vginfo new_vginfo newExported newCreationHost hostname (primary :: rest) =
      (if duplicate_vgname_policy_use_new primary.exported primary.creation_host
            newExported newCreationHost hostname
       then new_vginfo :: primary :: rest
       else (primary :: rest) ++ [new_vginfo]) ∧
    (_insert_vginfo new_vginfo newExported newCreationHost hostname
        (primary :: rest)).head? =
      some (if duplicate_vgname_policy_use_new primary.exported primary.creation_host
                 newExported newCreationHost hostname
            then new_vginfo else primary) ∧
    primary ∈ _insert_vginfo new_vginfo newExported newCreationHost hostname
        (primary :: rest) ∧
    new_vginfo ∈ _insert_vginfo new_vginfo newExported newCreationHost hostname
        (primary :: rest) := by
  have hdec : _use_new_vginfo primary newExported newCreationHost hostname =
      duplicate_vgname_policy_use_new primary.exported primary.creation_host
        newExported newCreationHost hostname := by
    unfold _use_new_vginfo duplicate_vgname_policy_use_new
    cases hp : primary.creation_host <;> cases hn : newCreationHost <;>
      simp [hp, hn]
  refine ⟨?_, ?_, ?_, ?_⟩
  · show (if _use_new_vginfo primary newExported newCreationHost hostname then
        new_vginfo :: primary :: rest else (primary :: rest) ++ [new_vginfo]) = _
    rw [hdec]
  · show (if _use_new_vginfo primary newExported newCreationHost hostname then
        new_vginfo :: primary :: rest else (primary :: rest) ++ [new_vginfo]).head? = _
    rw [hdec]
    split <;> simp
  · show primary ∈ (if _use_new_vginfo primary newExported newCreationHost hostname then
        new_vginfo :: primary :: rest else (primary :: rest) ++ [new_vginfo])
    split <;> simp
  · show new_vginfo ∈ (if _use_new_vginfo primary newExported newCreationHost hostname then
        new_vginfo :: primary :: rest else (primary :: rest) ++ [new_vginfo])
    split <;> simp

/-! ## Claim C1: duplicate PV suppression -/

/-- Claim C1: when a pvid is already registered for device A, registering
the same pvid from a different device produces no record, leaves the state
of the identity index unchanged (lookup still returns the record for A),
emits warnings, and sets the process-wide Duplicate-Found Flag. -/
theorem C1_duplicate_pv_rejected (env : AddEnv) (s : AddState) (pvid : String)
    (a : PvInfo) (dev : Dev)
    (hreg : lvmcache_info_from_pvid s pvid = some a) (hne : a.dev ≠ dev) :
    lvmcache_add env s pvid dev =
      (none, { s with foundDuplicates := true, warnCount := s.warnCount + 2 }) ∧
    (lvmcache_add env s pvid dev).2.pvidHash = s.pvidHash ∧
    lvmcache_info_from_pvid (lvmcache_add env s pvid dev).2 pvid = some a ∧
    (lvmcache_add env s pvid dev).2.warnCount = s.warnCount + 2 ∧
    lvmcache_found_duplicates (lvmcache_add env s pvid dev).2 = true := by
  have hadd : lvmcache_add env s pvid dev =
      (none, { s with foundDuplicates := true, warnCount := s.warnCount + 2 }) := by
    unfold lvmcache_add
    rw [hreg]
    dsimp only
    rw [if_pos hne]
  refine ⟨hadd, ?_, ?_, ?_, ?_⟩
  · rw [hadd]
  · rw [hadd]
    exact hreg
  · rw [hadd]
  · rw [hadd]
    rfl

/-- Concrete instances for the C1 witness: pvid p1 registered for device
1, then observed on device 2. -/
def aC1 : PvInfo :=
  { dev := { devId := 1, pvid := "p1" }, cacheInvalid := false, cacheLocked := false }

def sC1 : AddState :=
  { pvidHash := [("p1", aC1)], foundDuplicates := false, warnCount := 0 }

def devB_C1 : Dev := { devId := 2, pvid := "p1" }

/-- Witness for C1 at a concrete duplicate registration. -/
theorem C1_witness :
    lvmcache_add { vgUpdateOk := true } sC1 "p1" devB_C1 =
      (none, { sC1 with foundDuplicates := true, warnCount := 2 }) ∧
    lvmcache_info_from_pvid (lvmcache_add { vgUpdateOk := true } sC1 "p1" devB_C1).2 "p1" =
      some aC1 ∧
    lvmcache_found_duplicates (lvmcache_add { vgUpdateOk := true } sC1 "p1" devB_C1).2 =
      true := by
  have h := C1_duplicate_pv_rejected { vgUpdateOk := true } sC1 "p1" aC1 devB_C1
    (by decide) (by decide)
  exact ⟨h.1, h.2.2.1, h.2.2.2.2⟩

/-! ## Claim C4: lock ordering -/

instance (a b : String) : Decidable (lockOrderLt a b) := by
  unfold lockOrderLt
  infer_instance

theorem lockRank_zero_iff (n : String) : lockRank n = 0 ↔ is_global_vg n = true := by
  unfold lockRank
  split
  · simp_all
  · split <;> simp_all

theorem lockRank_one_iff (n : String) :
    lockRank n = 1 ↔ (is_global_vg n = false ∧ is_orphan_vg n = false) := by
  unfold lockRank
  split
  · simp_all
  · split <;> simp_all

theorem lockRank_two_iff (n : String) :
    lockRank n = 2 ↔ (is_global_vg n = false ∧ is_orphan_vg n = true) := by
  unfold lockRank
  split
  · simp_all
  · split <;> simp_all

theorem lockRank_le_two (n : String) : lockRank n ≤ 2 := by
  unfold lockRank
  split
  · omega
  · split <;> omega

/-- A held name that precedes the requested one in the required order is
accepted by _vgname_order_correct. -/
theorem order_correct_of_lt (h v : String) (hlt : lockOrderLt h v) :
    _vgname_order_correct h v = true := by
  unfold _vgname_order_correct
  rcases hlt with hrank | ⟨h1, h2, hstr⟩
  · have hh2 := lockRank_le_two v
    rcases Nat.lt_or_ge (lockRank h) 1 with hle | hge
    · have hg : is_global_vg h = true := (lockRank_zero_iff h).1 (by omega)
      simp [hg]
    · have hh : lockRank h = 1 := by omega
      have hv : lockRank v = 2 := by omega
      obtain ⟨hg1, ho1⟩ := (lockRank_one_iff h).1 hh
      obtain ⟨hg2, ho2⟩ := (lockRank_two_iff v).1 hv
      simp [hg1, hg2, ho1, ho2]
  · obtain ⟨hg1, ho1⟩ := (lockRank_one_iff h).1 h1
    obtain ⟨hg2, ho2⟩ := (lockRank_one_iff v).1 h2
    simp [hg1, hg2, ho1, ho2, hstr]

/-- A held name that must come after the requested one in the required
order is refused by _vgname_order_correct. -/
theorem order_correct_refutes_gt (h v : String) (hlt : lockOrderLt v h) :
    _vgname_order_correct h v = false := by
  unfold _vgname_order_correct
  rcases hlt with hrank | ⟨h1, h2, hstr⟩
  · have hh2 := lockRank_le_two h
    rcases Nat.lt_or_ge (lockRank v) 1 with hle | hge
    · have hg : is_global_vg v = true := (lockRank_zero_iff v).1 (by omega)
      have hh : lockRank h ≥ 1 := by omega
      have hgh : is_global_vg h = false := by
        rcases hh' : is_global_vg h with _ | _
        · rfl
        · exact absurd ((lockRank_zero_iff h).2 hh') (by omega)
      simp [hg, hgh]
    · have hv : lockRank v = 1 := by omega
      have hh : lockRank h = 2 := by omega
      obtain ⟨hg1, ho1⟩ := (lockRank_one_iff v).1 hv
      obtain ⟨hg2, ho2⟩ := (lockRank_two_iff h).1 hh
      simp [hg1, hg2, ho1, ho2]
  · obtain ⟨hg1, ho1⟩ := (lockRank_one_iff v).1 h1
    obtain ⟨hg2, ho2⟩ := (lockRank_one_iff h).1 h2
    have hnot : ¬ h < v := fun hc => absurd hstr (lt_asymm hc)
    simp [hg1, hg2, ho1, ho2, hnot]

/-- Claim C4: when every currently held lock name precedes the requested
name in the required total order (global first, ordinary names in
lexicographic order, orphan names last), lvmcache_verify_lock_order
accepts the request; when the requested name would have to be acquired
before some held name, it reports a violation. -/
theorem C4_verify_lock_order (lockHash : List String) (vgname : String) :
    ((∀ h ∈ lockHash, lockOrderLt h vgname) →
       lvmcache_verify_lock_order lockHash vgname = true) ∧
    ((∃ h ∈ lockHash, lockOrderLt vgname h) →
       lvmcache_verify_lock_order lockHash vgname = false) := by
  constructor
  · intro hall
    unfold lvmcache_verify_lock_order
    rw [List.all_eq_true]
    intro x hx
    exact order_correct_of_lt x vgname (hall x hx)
  · rintro ⟨h, hmem, hlt⟩
    unfold lvmcache_verify_lock_order
    rcases hall : (lockHash.all fun vgname2 => _vgname_order_correct vgname2 vgname) with _ | _
    · rfl
    · rw [List.all_eq_true] at hall
      have := hall h hmem
      rw [order_correct_refutes_gt h vgname hlt] at this
      cases this

/-- Witness for C4: an in-order acquisition is accepted, an out-of-order
request is refused. -/
theorem C4_witness :
    lvmcache_verify_lock_order ["aa", VG_GLOBAL] "bb" = true ∧
    lvmcache_verify_lock_order ["bb"] "aa" = false := by
  constructor
  · refine (C4_verify_lock_order ["aa", VG_GLOBAL] "bb").1 ?_
    intro h hmem
    simp only [List.mem_cons, List.not_mem_nil, or_false] at hmem
    rcases hmem with rfl | rfl
    · unfold lockOrderLt
      right
      refine ⟨by decide, by decide, ?_⟩
      rw [String.lt_iff_toList_lt]
      decide
    · unfold lockOrderLt
      left
      decide
  · refine (C4_verify_lock_order ["bb"] "aa").2 ?_
    refine ⟨"bb", by simp, ?_⟩
    unfold lockOrderLt
    right
    refine ⟨by decide, by decide, ?_⟩
    rw [String.lt_iff_toList_lt]
    decide

/-! ## Helper lemmas on the association lists -/

theorem alookup_cons {β : Type} (k' : String) (w : β) (t : List (String × β))
    (k : String) : alookup ((k', w) :: t) k = if k' = k then some w else alookup t k :=
  rfl

theorem aset_cons {β : Type} (k' : String) (w : β) (t : List (String × β))
    (k : String) (v : β) :
    aset ((k', w) :: t) k v = (if k' = k then (k, v) else (k', w)) :: aset t k v :=
  rfl

theorem alookup_aset_self {β : Type} (l : List (String × β)) (k : String)
    (v0 v : β) (h : alookup l k = some v0) : alookup (aset l k v) k = some v := by
  induction l with
  | nil => simp [alookup] at h
  | cons p t ih =>
      rcases p with ⟨k', w⟩
      by_cases hk : k' = k
      · subst hk
        rw [aset_cons, if_pos rfl, alookup_cons, if_pos rfl]
      · rw [alookup_cons, if_neg hk] at h
        rw [aset_cons, if_neg hk, alookup_cons, if_neg hk]
        exact ih h

/-! ## Claim C5: invalidation on lock transitions -/

theorem is_orphan_global : is_orphan_vg VG_GLOBAL = false := by decide

theorem vgname_is_locked_global_cons (l : List String) (name : String)
    (hng : name ≠ VG_GLOBAL) :
    lvmcache_vgname_is_locked (name :: l) VG_GLOBAL =
      lvmcache_vgname_is_locked l VG_GLOBAL := by
  unfold lvmcache_vgname_is_locked
  rw [is_orphan_global]
  simp only [Bool.false_eq_true, if_false, List.mem_cons, decide_eq_true_eq]
  have : ¬ VG_GLOBAL = name := fun hc => hng hc.symm
  simp [this]

/-- When every member flips its lock status and the global lock is not
held, the record update marks every member CACHE_INVALID and discards the
cached blob. -/
theorem update_vginfo_lock_state_flip (v : Vginfo) (b : Bool)
    (hne : v.infos ≠ []) (hall : ∀ i ∈ v.infos, i.cacheLocked = !b) :
    (_update_cache_vginfo_lock_state false v b).vgmetadata = none ∧
    (_update_cache_vginfo_lock_state false v b).infos =
      v.infos.map (fun i => { i with cacheInvalid := true, cacheLocked := b }) := by
  have hupd : ∀ i ∈ v.infos, _update_cache_info_lock_state false b i =
      ({ i with cacheInvalid := true, cacheLocked := b }, false) := by
    intro i hi
    unfold _update_cache_info_lock_state
    rw [hall i hi]
    cases b <;> rfl
  have hmapfst : (v.infos.map (_update_cache_info_lock_state false b)).map Prod.fst =
      v.infos.map (fun i => { i with cacheInvalid := true, cacheLocked := b }) := by
    rw [List.map_map]
    refine List.map_congr_left ?_
    intro i hi
    rw [Function.comp_apply, hupd i hi]
  have hallfalse :
      (v.infos.map (_update_cache_info_lock_state false b)).all Prod.snd = false := by
    cases hvi : v.infos with
    | nil => exact absurd hvi hne
    | cons a t =>
        have ha : a ∈ v.infos := by
          rw [hvi]; exact List.mem_cons_self a t
        simp [hupd a ha]
  unfold _update_cache_vginfo_lock_state
  simp only [hallfalse, Bool.false_eq_true, if_false]
  constructor
  · exact free_cached_vgmetadata_eq_none _
  · rw [free_cached_vgmetadata_infos]
    exact hmapfst

/-- With the global lock held, a lock transition only rewrites the
CACHE_LOCKED bits: no member is invalidated and the blob is kept. -/
theorem update_vginfo_lock_state_global (v : Vginfo) (b : Bool) :
    _update_cache_vginfo_lock_state true v b =
      { v with infos := v.infos.map (fun i => { i with cacheLocked := b }) } := by
  have hupd : ∀ i, _update_cache_info_lock_state true b i =
      ({ i with cacheLocked := b }, true) := by
    intro i
    rfl
  have hcomp : (Prod.fst ∘ _update_cache_info_lock_state true b) =
      fun i => { i with cacheLocked := b } := by
    funext i
    rw [Function.comp_apply, hupd i]
  have halltrue :
      (v.infos.map (_update_cache_info_lock_state true b)).all Prod.snd = true := by
    rw [List.all_eq_true]
    intro x hx
    obtain ⟨i, _, rfl⟩ := List.mem_map.mp hx
    rw [hupd i]
  unfold _update_cache_vginfo_lock_state
  simp only [halltrue, if_true]
  rw [List.map_map, hcomp]

/-- The vgname table after locking a non-global name. -/
theorem lock_vgname_vgnameHash (s : LockState) (name : String) (v : Vginfo)
    (hin : s.inited = true) (hng : name ≠ VG_GLOBAL)
    (hv : alookup s.vgnameHash name = some v) :
    (lvmcache_lock_vgname s name).vgnameHash =
      aset s.vgnameHash name
        (_update_cache_vginfo_lock_state
          (lvmcache_vgname_is_locked s.lockHash VG_GLOBAL) v true) := by
  unfold lvmcache_lock_vgname _lock_vgname_body _update_cache_lock_state
  rw [hin]
  by_cases hmem : name ∈ s.lockHash
  · simp only [Bool.not_true, Bool.false_eq_true, if_false, hmem, if_true,
      if_pos hng, hv, vgname_is_locked_global_cons _ _ hng]
  · simp only [Bool.not_true, Bool.false_eq_true, if_false, hmem, if_true,
      if_pos hng, hv, vgname_is_locked_global_cons _ _ hng]

/-- The vgname table after unlocking a non-global name. -/
theorem unlock_vgname_vgnameHash (s : LockState) (name : String) (v : Vginfo)
    (hng : name ≠ VG_GLOBAL) (hv : alookup s.vgnameHash name = some v) :
    (lvmcache_unlock_vgname s name).vgnameHash =
      aset s.vgnameHash name
        (_update_cache_vginfo_lock_state
          (lvmcache_vgname_is_locked s.lockHash VG_GLOBAL) v false) := by
  unfold lvmcache_unlock_vgname _update_cache_lock_state
  by_cases hmem : name ∈ s.lockHash
  · simp only [hmem, not_true, if_false, if_pos hng, hv,
      apply_ite (LockState.vgnameHash)]
    simp
  · simp only [hmem, not_false_iff, if_true, if_pos hng, hv,
      apply_ite (LockState.vgnameHash)]
    simp

/-- Claim C5: locking or unlocking a non-global VG name while the
held/not-held status of its member PVs flips marks every member
CACHE_INVALID and discards the cached metadata blob, unless the global
lock is currently held, in which case only the CACHE_LOCKED bits change
and no invalidation occurs. -/
theorem C5_lock_transition_invalidation (s : LockState) (name : String)
    (v : Vginfo) (b : Bool) (hin : s.inited = true) (hng : name ≠ VG_GLOBAL)
    (hv : alookup s.vgnameHash name = some v) :
    (lvmcache_vgname_is_locked s.lockHash VG_GLOBAL = false →
      v.infos ≠ [] → (∀ i ∈ v.infos, i.cacheLocked = !b) →
      ∃ v', alookup (if b then lvmcache_lock_vgname s name
                     else lvmcache_unlock_vgname s name).vgnameHash name = some v' ∧
        (∀ i ∈ v'.infos, i.cacheInvalid = true) ∧ v'.vgmetadata = none) ∧
    (lvmcache_vgname_is_locked s.lockHash VG_GLOBAL = true →
      ∃ v', alookup (if b then lvmcache_lock_vgname s name
                     else lvmcache_unlock_vgname s name).vgnameHash name = some v' ∧
        v' = { v with infos := v.infos.map (fun i => { i with cacheLocked := b }) }) := by
  have hhash : (if b then lvmcache_lock_vgname s name
                else lvmcache_unlock_vgname s name).vgnameHash =
      aset s.vgnameHash name
        (_update_cache_vginfo_lock_state
          (lvmcache_vgname_is_locked s.lockHash VG_GLOBAL) v b) := by
    cases b
    · simpa using unlock_vgname_vgnameHash s name v hng hv
    · simpa using lock_vgname_vgnameHash s name v hin hng hv
  constructor
  · intro hgl hne hall
    rw [hgl] at hhash
    have hupd := update_vginfo_lock_state_flip v b hne hall
    refine ⟨_update_cache_vginfo_lock_state false v b, ?_, ?_, hupd.1⟩
    · rw [hhash]
      exact alookup_aset_self _ _ _ _ hv
    · intro i hi
      rw [hupd.2] at hi
      obtain ⟨j, _, rfl⟩ := List.mem_map.mp hi
      rfl
  · intro hgl
    rw [hgl] at hhash
    refine ⟨_update_cache_vginfo_lock_state true v b, ?_, ?_⟩
    · rw [hhash]
      exact alookup_aset_self _ _ _ _ hv
    · exact update_vginfo_lock_state_global v b

/-- Concrete instances for the C5 witness: one member PV, currently
unlocked, global lock not held; the VG name gets locked. -/
def iC5 : PvInfo :=
  { dev := { devId := 1, pvid := "p5" }, cacheInvalid := false, cacheLocked := false }

def vC5 : Vginfo :=
  { vgname := "vg5", vgid := "id5", exported := false, creation_host := none,
    vgmetadata := some "m5", vgmetadata_size := 2, cft := none,
    cached_vg := none, holders := 0, vg_use_count := 0, precommitted := false,
    cached_vg_invalidated := false, infos := [iC5] }

def sC5 : LockState :=
  { inited := true, lockHash := [], vgnameHash := [("vg5", vC5)],
    vgsLocked := 0, vgGlobalLockHeld := false, internalErrorCount := 0,
    devCloseAllCount := 0 }

/-- Witness for C5 at a concrete lock acquisition. -/
theorem C5_witness :
    ∃ v', alookup (lvmcache_lock_vgname sC5 "vg5").vgnameHash "vg5" = some v' ∧
      (∀ i ∈ v'.infos, i.cacheInvalid = true) ∧ v'.vgmetadata = none := by
  have h := C5_lock_transition_invalidation sC5 "vg5" vC5 true (by decide)
    (by decide) (by decide)
  exact h.1 (by decide) (by decide) (by decide)

/-! ## Claim C10: the global lock survives teardown and re-initialisation -/

theorem destroy_lockname_foldl (l : List String) (s : LockState) :
    (l.foldl _lvmcache_destroy_lockname s).internalErrorCount =
      s.internalErrorCount + (l.filter (fun n => n ≠ VG_GLOBAL)).length ∧
    (l.foldl _lvmcache_destroy_lockname s).vgGlobalLockHeld =
      (s.vgGlobalLockHeld || l.contains VG_GLOBAL) := by
  induction l generalizing s with
  | nil => simp
  | cons a t ih =>
      simp only [List.foldl_cons]
      by_cases ha : a = VG_GLOBAL
      · subst ha
        have h1 : _lvmcache_destroy_lockname s VG_GLOBAL =
            { s with vgGlobalLockHeld := true } := by
          unfold _lvmcache_destroy_lockname
          rw [if_pos rfl]
        rw [h1]
        refine ⟨?_, ?_⟩
        · rw [(ih _).1]
          simp
        · rw [(ih _).2]
          simp
      · have h1 : _lvmcache_destroy_lockname s a =
            { s with internalErrorCount := s.internalErrorCount + 1 } := by
          unfold _lvmcache_destroy_lockname
          rw [if_neg ha]
        rw [h1]
        refine ⟨?_, ?_⟩
        · rw [(ih _).1]
          simp [ha]
          omega
        · rw [(ih _).2]
          simp [ha, Ne.symm ha]

theorem init_restores_global (s : LockState) (h : s.vgGlobalLockHeld = true) :
    (lvmcache_init s).lockHash = [VG_GLOBAL] ∧
    (lvmcache_init s).vgGlobalLockHeld = false := by
  unfold lvmcache_init _lock_vgname_body
  simp [h]

theorem is_locked_singleton_global (n : String) (h : n ≠ VG_GLOBAL) :
    lvmcache_vgname_is_locked [VG_GLOBAL] n = false := by
  unfold lvmcache_vgname_is_locked
  by_cases ho : is_orphan_vg n
  · rw [if_pos ho]
    decide
  · rw [if_neg ho]
    simp [h]

/-- Claim C10: if the global name is registered as locked when the cache
is destroyed without the reset option, then after the next initialisation
the global name is again registered as locked, while every other name left
locked at destroy is reported as an internal error (one report per name)
and is not restored. -/
theorem C10_global_lock_survives_reinit (s : LockState)
    (hin : s.inited = true) (hg : VG_GLOBAL ∈ s.lockHash) :
    lvmcache_vgname_is_locked (lvmcache_init (lvmcache_destroy s false)).lockHash
      VG_GLOBAL = true ∧
    (lvmcache_init (lvmcache_destroy s false)).lockHash = [VG_GLOBAL] ∧
    (∀ n ∈ s.lockHash, n ≠ VG_GLOBAL →
      lvmcache_vgname_is_locked (lvmcache_init (lvmcache_destroy s false)).lockHash
        n = false) ∧
    (lvmcache_destroy s false).internalErrorCount =
      s.internalErrorCount + (s.lockHash.filter (fun n => n ≠ VG_GLOBAL)).length ∧
    (lvmcache_init (lvmcache_destroy s false)).vgGlobalLockHeld = false := by
  have hfold := destroy_lockname_foldl s.lockHash s
  have hdes : lvmcache_destroy s false =
      { s.lockHash.foldl _lvmcache_destroy_lockname s with
        lockHash := [], vgnameHash := [], inited := false } := by
    unfold lvmcache_destroy
    rw [hin]
    rfl
  have hheld : (lvmcache_destroy s false).vgGlobalLockHeld = true := by
    rw [hdes]
    show (s.lockHash.foldl _lvmcache_destroy_lockname s).vgGlobalLockHeld = true
    rw [hfold.2]
    have : s.lockHash.contains VG_GLOBAL = true := List.elem_eq_true_of_mem hg
    rw [this]
    simp
  have hinit := init_restores_global (lvmcache_destroy s false) hheld
  refine ⟨?_, hinit.1, ?_, ?_, hinit.2⟩
  · rw [hinit.1]
    decide
  · intro n _ hne
    rw [hinit.1]
    exact is_locked_singleton_global n hne
  · rw [hdes]
    show (s.lockHash.foldl _lvmcache_destroy_lockname s).internalErrorCount = _
    exact hfold.1

/-- Concrete state for the C10 witness: global lock and one leaked per-VG
lock registered at teardown time. -/
def sC10 : LockState :=
  { inited := true, lockHash := [VG_GLOBAL, "vgx"], vgnameHash := [],
    vgsLocked := 1, vgGlobalLockHeld := false, internalErrorCount := 0,
    devCloseAllCount := 0 }

/-- Witness for C10 at a concrete teardown and re-initialisation. -/
theorem C10_witness :
    lvmcache_vgname_is_locked (lvmcache_init (lvmcache_destroy sC10 false)).lockHash
      VG_GLOBAL = true ∧
    (lvmcache_destroy sC10 false).internalErrorCount = 1 ∧
    lvmcache_vgname_is_locked (lvmcache_init (lvmcache_destroy sC10 false)).lockHash
      "vgx" = false := by
  have h := C10_global_lock_survives_reinit sC10 (by decide) (by simp [sC10])
  refine ⟨h.1, ?_, ?_⟩
  · rw [h.2.2.2.1]
    decide
  · exact h.2.2.1 "vgx" (by simp [sC10]) (by decide)

/-! ## Claim C9: scan orchestration -/

/-- Claim C9: with the external metadata daemon active, label_scan
succeeds without touching any local cache structure and reads no device;
with a scan already in progress it fails without reading any device (no
nested scan); and when a scan already happened and no full scan is forced,
exactly the devices of CACHE_INVALID entries are re-read. -/
theorem C9_label_scan (env : ScanEnv) (s : ScanState) (full_scan : Nat) :
    (env.lvmetadActive = true → lvmcache_label_scan env s full_scan = (true, s, [])) ∧
    (env.lvmetadActive = false → s.scanningInProgress = true →
      lvmcache_label_scan env s full_scan = (false, s, [])) ∧
    (env.lvmetadActive = false → s.scanningInProgress = false → s.inited = true →
      s.hasScanned = true → full_scan = 0 →
      (lvmcache_label_scan env s full_scan).1 = true ∧
      ∀ d : Dev, d ∈ (lvmcache_label_scan env s full_scan).2.2 ↔
        ∃ p ∈ s.pvidHash, p.2.cacheInvalid = true ∧ p.2.dev = d) := by
  refine ⟨?_, ?_, ?_⟩
  · intro hl
    unfold lvmcache_label_scan
    rw [hl]
    rfl
  · intro hl hs
    unfold lvmcache_label_scan
    rw [hl, hs]
    rfl
  · intro hl hs hinit hscan hfull
    have hred : lvmcache_label_scan env s full_scan =
        (true, { s with scanningInProgress := false },
         (s.pvidHash.filter (fun p => p.2.cacheInvalid)).map (fun p => p.2.dev)) := by
      unfold lvmcache_label_scan
      rw [hl, hs, hinit, hfull]
      simp [hscan]
    rw [hred]
    refine ⟨rfl, ?_⟩
    intro d
    simp only [List.mem_map, List.mem_filter]
    constructor
    · rintro ⟨p, ⟨hp, hinv⟩, rfl⟩
      exact ⟨p, hp, hinv, rfl⟩
    · rintro ⟨p, hp, hinv, rfl⟩
      exact ⟨p, ⟨hp, hinv⟩, rfl⟩

/-- Concrete instances for the C9 witness: one invalid and one valid
entry after a completed scan. -/
def iC9a : PvInfo :=
  { dev := { devId := 1, pvid := "p91" }, cacheInvalid := true, cacheLocked := false }

def iC9b : PvInfo :=
  { dev := { devId := 2, pvid := "p92" }, cacheInvalid := false, cacheLocked := false }

def sC9 : ScanState :=
  { inited := true, pvidHash := [("p91", iC9a), ("p92", iC9b)],
    hasScanned := true, scanningInProgress := false }

def envC9 : ScanEnv :=
  { lvmetadActive := false, filterUseCountZero := false, refreshOk := true,
    filterDevs := some [], independentMdas := false, fmtScanOk := true }

/-- Witness for C9 at a concrete partial re-scan: the invalid entry is
re-read and the valid one is not, and the delegation and re-entrancy
guards fire on concrete states. -/
theorem C9_witness :
    lvmcache_label_scan { envC9 with lvmetadActive := true } sC9 2 = (true, sC9, []) ∧
    lvmcache_label_scan envC9 { sC9 with scanningInProgress := true } 2 =
      (false, { sC9 with scanningInProgress := true }, []) ∧
    (lvmcache_label_scan envC9 sC9 0).1 = true ∧
    iC9a.dev ∈ (lvmcache_label_scan envC9 sC9 0).2.2 ∧
    iC9b.dev ∉ (lvmcache_label_scan envC9 sC9 0).2.2 := by
  have h1 := (C9_label_scan { envC9 with lvmetadActive := true } sC9 2).1 rfl
  have h2 := (C9_label_scan envC9 { sC9 with scanningInProgress := true } 2).2.1 rfl rfl
  have h3 := (C9_label_scan envC9 sC9 0).2.2 rfl rfl rfl rfl rfl
  refine ⟨h1, h2, h3.1, ?_, ?_⟩
  · exact (h3.2 iC9a.dev).mpr ⟨("p91", iC9a), by decide, rfl, rfl⟩
  · intro hm
    exact absurd ((h3.2 iC9b.dev).mp hm) (by decide)

/-! ## Claim C2: the lvmcache_get_vg contract -/

/-- The conditions under which the format backend rebuild (or the cached
parsed object) can produce the shared VG object: either a valid cached
object exists, or instance creation and pool locking succeed and the
config tree (cached or parsed from the blob) imports successfully. -/
def getVgBuildOk (env : MetaEnv) (v : Vginfo) (blob : String) : Prop :=
  (v.cached_vg.isSome ∧ v.cached_vg_invalidated = false) ∨
  (env.createInstanceOk = true ∧ env.poolLockOk = true ∧
   (match v.cft with
    | some t => env.importVgFromConfigTree t
    | none => (env.dm_config_from_string blob).bind
        env.importVgFromConfigTree).isSome)

theorem get_vg_out_fst (s : MetaState) (id : String) (v : Vginfo) (vg : Nat) :
    (_get_vg_out s id v vg).1 = some vg :=
  rfl

theorem get_vg_out_vgidHash (s : MetaState) (id : String) (v : Vginfo) (vg : Nat) :
    (_get_vg_out s id v vg).2.vgidHash =
      aset s.vgidHash id { v with holders := v.holders + 1, vg_use_count := v.vg_use_count + 1 } :=
  rfl

theorem get_vg_out_lockHash (s : MetaState) (id : String) (v : Vginfo) (vg : Nat) :
    (_get_vg_out s id v vg).2.lockHash = s.lockHash :=
  rfl

/-- Reduction of lvmcache_get_vg when the daemon is not active. -/
theorem get_vg_else (env : MetaEnv) (s : MetaState) (vgname : Option String)
    (pre : Bool) (id : String) (hlv : env.lvmetadActive = false) :
    lvmcache_get_vg env s vgname (some id) pre =
      (match alookup s.vgidHash id with
       | none => (none, s)
       | some v =>
          match v.vgmetadata with
          | none => (none, s)
          | some blob =>
              if !(_vginfo_is_valid s.lockHash v) then (none, s)
              else if (pre && !v.precommitted) ||
                      (!pre && v.precommitted && !env.criticalSectionFlag) then (none, s)
              else match v.cached_vg with
                | some vg => if !v.cached_vg_invalidated then _get_vg_out s id v vg
                             else _get_vg_build env s id (_release_vg_cached v) blob
                | none => _get_vg_build env s id (_release_vg_cached v) blob) := by
  unfold lvmcache_get_vg
  rw [hlv]
  simp only [Bool.false_and, Bool.false_eq_true, if_false]

/-- A successful rebuild inside lvmcache_get_vg yields the freshly built
shared object, installed on the record with the caller counted. -/
theorem get_vg_build_some (env : MetaEnv) (s : MetaState) (id : String)
    (v : Vginfo) (blob : String) (hci : env.createInstanceOk = true)
    (hpl : env.poolLockOk = true)
    (himp : (match v.cft with
             | some t => env.importVgFromConfigTree t
             | none => (env.dm_config_from_string blob).bind
                 env.importVgFromConfigTree).isSome) :
    ∃ w v', _get_vg_build env s id v blob =
        (some w, { s with vgidHash := aset s.vgidHash id v' }) ∧
      v'.cached_vg = some w := by
  unfold _get_vg_build
  rw [hci]
  simp only [Bool.not_true, Bool.false_eq_true, if_false]
  cases hcft : v.cft with
  | some t =>
      rw [hcft] at himp
      dsimp only at himp
      obtain ⟨w, hw⟩ := Option.isSome_iff_exists.mp himp
      dsimp only
      rw [hw, hpl]
      simp only [Bool.not_true, Bool.false_eq_true, if_false]
      exact ⟨w, _, rfl, rfl⟩
  | none =>
      rw [hcft] at himp
      dsimp only at himp
      obtain ⟨w, hw⟩ := Option.isSome_iff_exists.mp himp
      obtain ⟨t, ht, hwt⟩ := Option.bind_eq_some.mp hw
      dsimp only
      rw [ht]
      dsimp only
      rw [hwt, hpl]
      simp only [Bool.not_true, Bool.false_eq_true, if_false]
      exact ⟨w, _, rfl, rfl⟩

/-- Claim C2: with the daemon inactive, lvmcache_get_vg returns no VG
whenever the record is missing, the blob is missing, the record is not
fully valid, precommitted metadata is requested but not cached, or live
metadata is requested while the cached blob is precommitted and no
critical section is active; otherwise (when the format backend
collaborators succeed) it returns the shared parsed VG object held on the
record. -/
theorem C2_get_vg_contract (env : MetaEnv) (s : MetaState)
    (vgname vgid : Option String) (pre : Bool)
    (hlv : env.lvmetadActive = false) :
    (vgid = none → (lvmcache_get_vg env s vgname vgid pre).1 = none) ∧
    (∀ id, vgid = some id → alookup s.vgidHash id = none →
      (lvmcache_get_vg env s vgname vgid pre).1 = none) ∧
    (∀ id v, vgid = some id → alookup s.vgidHash id = some v →
      v.vgmetadata = none →
      (lvmcache_get_vg env s vgname vgid pre).1 = none) ∧
    (∀ id v, vgid = some id → alookup s.vgidHash id = some v →
      _vginfo_is_valid s.lockHash v = false →
      (lvmcache_get_vg env s vgname vgid pre).1 = none) ∧
    (∀ id v, vgid = some id → alookup s.vgidHash id = some v →
      pre = true → v.precommitted = false →
      (lvmcache_get_vg env s vgname vgid pre).1 = none) ∧
    (∀ id v, vgid = some id → alookup s.vgidHash id = some v →
      pre = false → v.precommitted = true → env.criticalSectionFlag = false →
      (lvmcache_get_vg env s vgname vgid pre).1 = none) ∧
    (∀ id v blob, vgid = some id → alookup s.vgidHash id = some v →
      v.vgmetadata = some blob → _vginfo_is_valid s.lockHash v = true →
      ((pre && !v.precommitted) ||
       (!pre && v.precommitted && !env.criticalSectionFlag)) = false →
      getVgBuildOk env v blob →
      ∃ w, (lvmcache_get_vg env s vgname vgid pre).1 = some w ∧
        ∃ v', alookup (lvmcache_get_vg env s vgname vgid pre).2.vgidHash id = some v' ∧
          v'.cached_vg = some w) := by
  refine ⟨?_, ?_, ?_, ?_, ?_, ?_, ?_⟩
  · rintro rfl
    unfold lvmcache_get_vg
    rw [hlv]
    simp only [Bool.false_and, Bool.false_eq_true, if_false]
  · rintro id rfl hv
    rw [get_vg_else env s vgname pre id hlv, hv]
  · rintro id v rfl hv hm
    rw [get_vg_else env s vgname pre id hlv, hv]
    dsimp only
    rw [hm]
  · rintro id v rfl hv hval
    rw [get_vg_else env s vgname pre id hlv, hv]
    dsimp only
    cases hm : v.vgmetadata with
    | none => rfl
    | some blob =>
        rw [hval]
        rfl
  · rintro id v rfl hv hpre hvp
    subst hpre
    rw [get_vg_else env s vgname true id hlv, hv]
    dsimp only
    cases hm : v.vgmetadata with
    | none => rfl
    | some blob =>
        cases hval : _vginfo_is_valid s.lockHash v with
        | false => rfl
        | true =>
            rw [hvp]
            rfl
  · rintro id v rfl hv hpre hvp hcs
    subst hpre
    rw [get_vg_else env s vgname false id hlv, hv]
    dsimp only
    cases hm : v.vgmetadata with
    | none => rfl
    | some blob =>
        cases hval : _vginfo_is_valid s.lockHash v with
        | false => rfl
        | true =>
            rw [hvp, hcs]
            rfl
  · rintro id v blob rfl hv hm hval hcond hbuild
    rw [get_vg_else env s vgname pre id hlv, hv]
    dsimp only
    rw [hm, hval, hcond]
    simp only [Bool.not_true, Bool.false_eq_true, if_false]
    cases hcv : v.cached_vg with
    | some vg =>
        cases hinv : v.cached_vg_invalidated with
        | false =>
            simp only [Bool.not_false, if_true]
            refine ⟨vg, get_vg_out_fst s id v vg, ?_⟩
            rw [get_vg_out_vgidHash]
            exact ⟨_, alookup_aset_self _ _ _ _ hv, hcv⟩
        | true =>
            simp only [Bool.not_true, Bool.false_eq_true, if_false]
            have hright := hbuild.resolve_left (by
              rintro ⟨_, hfalse⟩
              rw [hinv] at hfalse
              cases hfalse)
            obtain ⟨hci, hpl, hsome⟩ := hright
            have himp : (match (_release_vg_cached v).cft with
                | some t => env.importVgFromConfigTree t
                | none => (env.dm_config_from_string blob).bind
                    env.importVgFromConfigTree).isSome := by
              rw [release_vg_cached_cft]
              exact hsome
            obtain ⟨w, v', hb, hcw⟩ := get_vg_build_some env s id
              (_release_vg_cached v) blob hci hpl himp
            rw [hb]
            exact ⟨w, rfl, v', alookup_aset_self _ _ _ _ hv, hcw⟩
    | none =>
        have hright := hbuild.resolve_left (by
          rintro ⟨hfalse, _⟩
          rw [hcv] at hfalse
          cases hfalse)
        obtain ⟨hci, hpl, hsome⟩ := hright
        have himp : (match (_release_vg_cached v).cft with
            | some t => env.importVgFromConfigTree t
            | none => (env.dm_config_from_string blob).bind
                env.importVgFromConfigTree).isSome := by
          rw [release_vg_cached_cft]
          exact hsome
        obtain ⟨w, v', hb, hcw⟩ := get_vg_build_some env s id
          (_release_vg_cached v) blob hci hpl himp
        rw [hb]
        exact ⟨w, rfl, v', alookup_aset_self _ _ _ _ hv, hcw⟩

/-- Concrete instances for the C2 witness. -/
def envC2 : MetaEnv :=
  { lvmetadActive := false, criticalSectionFlag := false, lvmetadLookup := none,
    createInstanceOk := true, dm_config_from_string := fun b => some b,
    importVgFromConfigTree := fun _ => some 7, poolLockOk := true }

def vC2 : Vginfo :=
  { vgname := "vg2", vgid := "id2", exported := false, creation_host := none,
    vgmetadata := some "m2", vgmetadata_size := 2, cft := none,
    cached_vg := none, holders := 0, vg_use_count := 0, precommitted := false,
    cached_vg_invalidated := false, infos := [] }

def sC2 : MetaState :=
  { vgidHash := [("id2", vC2)], lockHash := [] }

/-- Witness for C2: a concrete missing record yields no VG, and a
concrete complete record yields the shared parsed object. -/
theorem C2_witness :
    (lvmcache_get_vg envC2 sC2 none (some "zz") false).1 = none ∧
    ∃ w, (lvmcache_get_vg envC2 sC2 none (some "id2") false).1 = some w ∧
      ∃ v', alookup (lvmcache_get_vg envC2 sC2 none
              (some "id2") false).2.vgidHash "id2" = some v' ∧
        v'.cached_vg = some w := by
  have h1 := (C2_get_vg_contract envC2 sC2 none (some "zz") false rfl).2.1
    "zz" rfl (by decide)
  have hbuild : getVgBuildOk envC2 vC2 "m2" := by
    right
    exact ⟨rfl, rfl, by decide⟩
  have h2 := (C2_get_vg_contract envC2 sC2 none (some "id2") false rfl).2.2.2.2.2.2
    "id2" vC2 "m2" rfl (by decide) rfl (by decide) (by decide) hbuild
  exact ⟨h1, h2⟩

/-! ## Claim C6: shared parsed VG object and holder accounting -/

/-- The record after lvmcache_get_vg has rebuilt the parsed object from
the blob: the config tree and VG object installed, one cache-owned holder
plus the caller. -/
def vg_after_build (v : Vginfo) (t : String) (w : Nat) : Vginfo :=
  { v with cft := some t, cached_vg := some w, holders := 2, vg_use_count := 1,
           cached_vg_invalidated := false }

/-- The record after m further cached reuses. -/
def vg_after_reuse (v : Vginfo) (m : Nat) : Vginfo :=
  { v with holders := v.holders + m, vg_use_count := v.vg_use_count + m }

/-- One lvmcache_get_vg call on a record with a valid cached parsed
object: the shared object is returned and one holder is added. -/
theorem get_vg_cached_eq (env : MetaEnv) (s : MetaState) (id : String)
    (v : Vginfo) (w : Nat) (hlv : env.lvmetadActive = false)
    (hv : alookup s.vgidHash id = some v) (hm : v.vgmetadata.isSome = true)
    (hval : _vginfo_is_valid s.lockHash v = true) (hpre : v.precommitted = false)
    (hcw : v.cached_vg = some w) (hinv : v.cached_vg_invalidated = false) :
    lvmcache_get_vg env s none (some id) false = _get_vg_out s id v w := by
  rw [get_vg_else env s none false id hlv, hv]
  dsimp only
  obtain ⟨blob, hb⟩ := Option.isSome_iff_exists.mp hm
  rw [hb]
  dsimp only
  rw [hval]
  simp only [Bool.not_true, Bool.false_eq_true, if_false]
  rw [hpre]
  simp only [Bool.false_and, Bool.and_false, Bool.false_or, Bool.not_false,
    Bool.true_and, Bool.false_eq_true, if_false]
  rw [hcw]
  dsimp only
  rw [hinv]
  simp only [Bool.not_false, if_true]

/-- m successive calls on a record with a valid cached parsed object all
return the identical shared object and add one holder each. -/
theorem get_vg_cached_iter (env : MetaEnv) (hlv : env.lvmetadActive = false)
    (id : String) (w : Nat) (m : Nat) :
    ∀ (s : MetaState) (v : Vginfo),
      alookup s.vgidHash id = some v →
      v.vgmetadata.isSome = true →
      _vginfo_is_valid s.lockHash v = true →
      v.precommitted = false →
      v.cached_vg = some w →
      v.cached_vg_invalidated = false →
      (∀ r ∈ (lvmcache_get_vg_iter env none (some id) false m s).1, r = some w) ∧
      (lvmcache_get_vg_iter env none (some id) false m s).2.lockHash = s.lockHash ∧
      alookup (lvmcache_get_vg_iter env none (some id) false m s).2.vgidHash id =
        some (vg_after_reuse v m) := by
  induction m with
  | zero =>
      intro s v hv hm hval hpre hcw hinv
      refine ⟨by simp [lvmcache_get_vg_iter], rfl, ?_⟩
      unfold vg_after_reuse
      simpa using hv
  | succ m ih =>
      intro s v hv hm hval hpre hcw hinv
      have hstep := get_vg_cached_eq env s id v w hlv hv hm hval hpre hcw hinv
      have hnext : alookup (_get_vg_out s id v w).2.vgidHash id =
          some (vg_after_reuse v 1) := by
        rw [get_vg_out_vgidHash]
        have : { v with holders := v.holders + 1, vg_use_count := v.vg_use_count + 1 } =
            vg_after_reuse v 1 := rfl
        rw [this]
        exact alookup_aset_self _ _ _ _ hv
      have hrec := ih (_get_vg_out s id v w).2 (vg_after_reuse v 1) hnext hm hval
        hpre hcw hinv
      have hiter : lvmcache_get_vg_iter env none (some id) false (m + 1) s =
          ((some w) :: (lvmcache_get_vg_iter env none (some id) false m
              (_get_vg_out s id v w).2).1,
           (lvmcache_get_vg_iter env none (some id) false m
              (_get_vg_out s id v w).2).2) := by
        show (let r := lvmcache_get_vg env s none (some id) false
              let rest := lvmcache_get_vg_iter env none (some id) false m r.2
              (r.1 :: rest.1, rest.2)) = _
        rw [hstep]
        exact rfl
      rw [hiter]
      refine ⟨?_, hrec.2.1, ?_⟩
      · intro r hr
        rcases List.mem_cons.mp hr with rfl | hr2
        · rfl
        · exact hrec.1 r hr2
      · rw [hrec.2.2]
        unfold vg_after_reuse
        have h1 : v.holders + 1 + m = v.holders + (m + 1) := by omega
        have h2 : v.vg_use_count + 1 + m = v.vg_use_count + (m + 1) := by omega
        rw [h1, h2]

/-- The record right after the rebuild installs the parsed object, before
the `out:` label counts the caller. -/
def vg_built_raw (v : Vginfo) (t : String) (w : Nat) : Vginfo :=
  { v with cft := some t, cached_vg := some w, holders := 1, vg_use_count := 0,
           cached_vg_invalidated := false }

/-- The first lvmcache_get_vg call on a record with a blob but no cached
parsed object: the object is built from the blob and installed with TWO
holders, the cache reference itself and the caller. -/
theorem get_vg_build_first (env : MetaEnv) (s : MetaState) (id : String)
    (v : Vginfo) (blob t : String) (w : Nat) (hlv : env.lvmetadActive = false)
    (hv : alookup s.vgidHash id = some v) (hb : v.vgmetadata = some blob)
    (hval : _vginfo_is_valid s.lockHash v = true) (hpre : v.precommitted = false)
    (hcv : v.cached_vg = none) (hcft : v.cft = none)
    (hci : env.createInstanceOk = true)
    (hparse : env.dm_config_from_string blob = some t)
    (himp : env.importVgFromConfigTree t = some w) (hpl : env.poolLockOk = true) :
    (lvmcache_get_vg env s none (some id) false).1 = some w ∧
    (lvmcache_get_vg env s none (some id) false).2.lockHash = s.lockHash ∧
    alookup (lvmcache_get_vg env s none (some id) false).2.vgidHash id =
      some (vg_after_build v t w) := by
  have hrel : _release_vg_cached v = v := by
    unfold _release_vg_cached
    rw [hcv]
  have hred : lvmcache_get_vg env s none (some id) false =
      _get_vg_out s id (vg_built_raw v t w) w := by
    rw [get_vg_else env s none false id hlv, hv]
    dsimp only
    rw [hb]
    dsimp only
    rw [hval]
    simp only [Bool.not_true, Bool.false_eq_true, if_false]
    rw [hpre]
    simp only [Bool.false_and, Bool.and_false, Bool.false_or, Bool.not_false,
      Bool.true_and, Bool.false_eq_true, if_false]
    rw [hcv]
    dsimp only
    rw [hrel]
    unfold _get_vg_build
    rw [hci]
    simp only [Bool.not_true, Bool.false_eq_true, if_false]
    rw [hcft]
    dsimp only
    rw [hparse]
    dsimp only
    rw [himp, hpl]
    simp only [Bool.not_true, Bool.false_eq_true, if_false]
    rfl
  rw [hred]
  refine ⟨get_vg_out_fst _ _ _ _, get_vg_out_lockHash _ _ _ _, ?_⟩
  rw [get_vg_out_vgidHash]
  exact alookup_aset_self _ _ _ _ hv

/-- Releasing fewer holders than are held never tears the parsed object
down; the holder count just decreases. -/
theorem holders_dec_iter_lt (k : Nat) :
    ∀ (v : Vginfo), k < v.holders →
      (holders_dec_iter k v).1 = { v with holders := v.holders - k } ∧
      (holders_dec_iter k v).2 = false := by
  induction k with
  | zero =>
      intro v _
      exact ⟨rfl, rfl⟩
  | succ k ih =>
      intro v hk
      have h1 : ¬ (v.holders - 1 = 0) := by omega
      have hdec : lvmcache_vginfo_holders_dec_and_test_for_zero v =
          ({ v with holders := v.holders - 1 }, false) := by
        unfold lvmcache_vginfo_holders_dec_and_test_for_zero
        simp only [if_neg h1]
      have hlt : k < v.holders - 1 := by omega
      have hrec := ih ({ v with holders := v.holders - 1 }) hlt
      have hstep : holders_dec_iter (k + 1) v =
          ((holders_dec_iter k ({ v with holders := v.holders - 1 })).1,
           false || (holders_dec_iter k ({ v with holders := v.holders - 1 })).2) := by
        show (let r := lvmcache_vginfo_holders_dec_and_test_for_zero v
              let rest := holders_dec_iter k r.1
              (rest.1, r.2 || rest.2)) = _
        rw [hdec]
      rw [hstep, hrec.1, hrec.2]
      constructor
      · have h2 : v.holders - 1 - k = v.holders - (k + 1) := by omega
        rw [h2]
      · rfl

/-- Releasing exactly as many holders as are held tears the parsed object
down on the last release. -/
theorem holders_dec_iter_exact (k : Nat) :
    ∀ (v : Vginfo), v.holders = k + 1 →
      (holders_dec_iter (k + 1) v).1.holders = 0 ∧
      (holders_dec_iter (k + 1) v).1.cached_vg = none ∧
      (holders_dec_iter (k + 1) v).2 = true := by
  induction k with
  | zero =>
      intro v hv
      have hdec : lvmcache_vginfo_holders_dec_and_test_for_zero v =
          ({ v with holders := 0, cached_vg := none }, true) := by
        unfold lvmcache_vginfo_holders_dec_and_test_for_zero
        rw [hv]
        simp
      have hstep : holders_dec_iter 1 v =
          ((holders_dec_iter 0 ({ v with holders := 0, cached_vg := none })).1,
           true || (holders_dec_iter 0 ({ v with holders := 0, cached_vg := none })).2) := by
        show (let r := lvmcache_vginfo_holders_dec_and_test_for_zero v
              let rest := holders_dec_iter 0 r.1
              (rest.1, r.2 || rest.2)) = _
        rw [hdec]
      rw [hstep]
      exact ⟨rfl, rfl, rfl⟩
  | succ k ih =>
      intro v hv
      have h1 : ¬ (v.holders - 1 = 0) := by omega
      have hdec : lvmcache_vginfo_holders_dec_and_test_for_zero v =
          ({ v with holders := v.holders - 1 }, false) := by
        unfold lvmcache_vginfo_holders_dec_and_test_for_zero
        simp only [if_neg h1]
      have heq : v.holders - 1 = k + 1 := by omega
      have hrec := ih ({ v with holders := v.holders - 1 }) heq
      have hstep : holders_dec_iter (k + 1 + 1) v =
          ((holders_dec_iter (k + 1) ({ v with holders := v.holders - 1 })).1,
           false || (holders_dec_iter (k + 1) ({ v with holders := v.holders - 1 })).2) := by
        show (let r := lvmcache_vginfo_holders_dec_and_test_for_zero v
              let rest := holders_dec_iter (k + 1) r.1
              (rest.1, r.2 || rest.2)) = _
        rw [hdec]
      rw [hstep]
      exact ⟨hrec.1, hrec.2.1, by rw [Bool.false_or]; exact hrec.2.2⟩

/-- Concrete instances for claim C6. -/
def envC6 : MetaEnv :=
  { lvmetadActive := false, criticalSectionFlag := false, lvmetadLookup := none,
    createInstanceOk := true, dm_config_from_string := fun b => some b,
    importVgFromConfigTree := fun _ => some 9, poolLockOk := true }

def vC6 : Vginfo :=
  { vgname := "vg6", vgid := "id6", exported := false, creation_host := none,
    vgmetadata := some "m6", vgmetadata_size := 2, cft := none,
    cached_vg := none, holders := 0, vg_use_count := 0, precommitted := false,
    cached_vg_invalidated := false, infos := [] }

def sC6 : MetaState :=
  { vgidHash := [("id6", vC6)], lockHash := [] }

/-- Claim C6 counterexample: after n = 1 call to lvmcache_get_vg and k = 0
releases, the holder count of the record is 2, not n − k = 1 (the cached
reference itself counts as a holder). -/
theorem C6_counterexample :
    (alookup (lvmcache_get_vg_iter envC6 none (some "id6") false 1 sC6).2.vgidHash
        "id6").map Vginfo.holders = some 2 ∧
    ¬ ((1 : Nat) - 0 = 2) := by
  constructor
  · decide
  · decide

/-- Claim C6 (amended): for n = m + 1 ≥ 1 calls to lvmcache_get_vg on the
same identifier without intervening invalidation, starting from a record
with a blob and no parsed object, every call returns the identical shared
parsed VG object; after the calls and k ≤ n completed releases the holder
count is n + 1 − k (the cache reference counts as one holder), the object
is never torn down by those releases, and the teardown happens exactly
when the count reaches zero, which takes all n caller releases plus the
cache reference drop. -/
theorem C6_shared_vg_holders (env : MetaEnv) (s : MetaState) (id : String)
    (v : Vginfo) (blob t : String) (w : Nat) (m k : Nat)
    (hlv : env.lvmetadActive = false)
    (hv : alookup s.vgidHash id = some v) (hb : v.vgmetadata = some blob)
    (hval : _vginfo_is_valid s.lockHash v = true) (hpre : v.precommitted = false)
    (hcv : v.cached_vg = none) (hcft : v.cft = none)
    (hci : env.createInstanceOk = true)
    (hparse : env.dm_config_from_string blob = some t)
    (himp : env.importVgFromConfigTree t = some w) (hpl : env.poolLockOk = true)
    (hk : k ≤ m + 1) :
    (∀ r ∈ (lvmcache_get_vg_iter env none (some id) false (m + 1) s).1,
      r = some w) ∧
    ∃ v', alookup (lvmcache_get_vg_iter env none
            (some id) false (m + 1) s).2.vgidHash id = some v' ∧
      v'.cached_vg = some w ∧
      v'.holders = (m + 1) + 1 ∧
      (holders_dec_iter k v').1.holders = (m + 1) + 1 - k ∧
      (holders_dec_iter k v').2 = false ∧
      (holders_dec_iter k v').1.cached_vg = some w ∧
      (holders_dec_iter ((m + 1) + 1) v').2 = true ∧
      (holders_dec_iter ((m + 1) + 1) v').1.holders = 0 ∧
      (holders_dec_iter ((m + 1) + 1) v').1.cached_vg = none := by
  have hfirst := get_vg_build_first env s id v blob t w hlv hv hb hval hpre hcv
    hcft hci hparse himp hpl
  have hiter : lvmcache_get_vg_iter env none (some id) false (m + 1) s =
      ((lvmcache_get_vg env s none (some id) false).1 ::
        (lvmcache_get_vg_iter env none (some id) false m
          (lvmcache_get_vg env s none (some id) false).2).1,
       (lvmcache_get_vg_iter env none (some id) false m
          (lvmcache_get_vg env s none (some id) false).2).2) := rfl
  have hmeta : (vg_after_build v t w).vgmetadata.isSome = true := by
    show v.vgmetadata.isSome = true
    rw [hb]
    rfl
  have hval2 : _vginfo_is_valid
      (lvmcache_get_vg env s none (some id) false).2.lockHash
      (vg_after_build v t w) = true := by
    rw [hfirst.2.1]
    exact hval
  have hrec := get_vg_cached_iter env hlv id w m
    (lvmcache_get_vg env s none (some id) false).2 (vg_after_build v t w)
    hfirst.2.2 hmeta hval2 hpre rfl rfl
  have hH : (vg_after_reuse (vg_after_build v t w) m).holders = (m + 1) + 1 := by
    show 2 + m = (m + 1) + 1
    omega
  have hlt : k < (vg_after_reuse (vg_after_build v t w) m).holders := by
    rw [hH]
    omega
  have hdl := holders_dec_iter_lt k (vg_after_reuse (vg_after_build v t w) m) hlt
  have hex := holders_dec_iter_exact (m + 1)
    (vg_after_reuse (vg_after_build v t w) m) hH
  constructor
  · intro r hr
    rw [hiter] at hr
    rcases List.mem_cons.mp hr with rfl | hr2
    · exact hfirst.1
    · exact hrec.1 r hr2
  · refine ⟨vg_after_reuse (vg_after_build v t w) m, ?_, rfl, hH, ?_, hdl.2, ?_,
      hex.2.2, hex.1, hex.2.1⟩
    · rw [hiter]
      exact hrec.2.2
    · rw [hdl.1]
      show (vg_after_reuse (vg_after_build v t w) m).holders - k = (m + 1) + 1 - k
      rw [hH]
    · rw [hdl.1]
      rfl

/-- Witness for the amended C6 at n = 2 calls and k = 1 release. -/
theorem C6_amended_witness :
    (∀ r ∈ (lvmcache_get_vg_iter envC6 none (some "id6") false 2 sC6).1,
      r = some 9) ∧
    ∃ v', alookup (lvmcache_get_vg_iter envC6 none
            (some "id6") false 2 sC6).2.vgidHash "id6" = some v' ∧
      v'.cached_vg = some 9 ∧
      v'.holders = 3 ∧
      (holders_dec_iter 1 v').1.holders = 2 ∧
      (holders_dec_iter 1 v').2 = false ∧
      (holders_dec_iter 1 v').1.cached_vg = some 9 ∧
      (holders_dec_iter 3 v').2 = true ∧
      (holders_dec_iter 3 v').1.holders = 0 ∧
      (holders_dec_iter 3 v').1.cached_vg = none := by
  have h := C6_shared_vg_holders envC6 sC6 "id6" vC6 "m6" "m6" 9 1 1 rfl
    (by decide) rfl (by decide) rfl rfl rfl rfl rfl rfl rfl (by decide)
  exact h
